import Mathlib

/-!
Shallow embedding of `src/native/wifi-display/ANetworkSession.cpp`
(the Wi-Fi Display network session multiplexer).

Bytes are modelled as `Nat` (values 0..255 on real inputs), byte buffers as
`List Nat`.  The non-blocking socket syscalls are modelled by their observed
results (`RecvResult`), the RTSP message parser — an external library in the
source — by an oracle function `ParseFn`, and the notification messages by the
inductive `Notif`.  A `CHECK(...)` macro in the source aborts the process on
failure; operations guarded by a `CHECK` are modelled as `Option`-valued, with
`none` for the aborting (or out-of-range) case.
-/

namespace ANetworkSession

/-- Session states, `ANetworkSession::Session::State` (lines 56-62). -/
inductive SState
  | connecting
  | connected
  | listeningRTSP
  | listeningTCPDgrams
  | datagram
deriving DecidableEq, Repr

/-- Per-session record: the fields of `ANetworkSession::Session`
(lines 90-103) that the pure state machine touches. -/
structure Session where
  sessionID : Nat
  state : SState
  isRTSPConnection : Bool
  sawReceiveFailure : Bool
  sawSendFailure : Bool
  outBuffer : List Nat
  outDatagrams : List (List Nat)
  inBuffer : List Nat
deriving DecidableEq, Repr

/-- Notifications posted through the caller-supplied template
(`kWhatClientConnected`, `kWhatConnected`, `kWhatData`, `kWhatBinaryData`,
`kWhatDatagram`, `kWhatError`).  The parsed-message object carried by a
`Data` notification is opaque here. -/
inductive Notif
  | clientConnected (sessionID : Nat)
  | connected (sessionID : Nat)
  | data (sessionID : Nat)
  | binaryData (sessionID : Nat) (channel : Nat) (payload : List Nat)
  | datagram (sessionID : Nat) (payload : List Nat)
  | error (sessionID : Nat) (send : Bool) (err : Int)
deriving DecidableEq, Repr

/-- Whether a notification is an `Error` notification. -/
def Notif.isErr : Notif → Bool
  | Notif.error _ _ _ => true
  | _ => false

/-- Whether a notification is a `Data` (parsed RTSP message) notification. -/
def Notif.isData : Notif → Bool
  | Notif.data _ => true
  | _ => false

/-- The 16-bit big-endian length-prefix frame built by
`Session::sendRequest` (lines 530-538): `prefix[0] = size >> 8`,
`prefix[1] = size & 0xff`, followed by the payload.  Only built under the
`CHECK_LE(size, 65535)` guard, so no truncation of the high byte occurs. -/
def lpFrame (p : List Nat) : List Nat :=
  p.length / 256 :: p.length % 256 :: p

/-- `ANetworkSession::Session::sendRequest` (lines 517-545).
`CHECK(mState == CONNECTED || mState == DATAGRAM)` and
`CHECK_LE(size, 65535)` abort the process on failure: modelled as `none`. -/
def Session.sendRequest (s : Session) (p : List Nat) : Option Session :=
  if s.state = SState.datagram then
    some { s with outDatagrams := s.outDatagrams ++ [p] }
  else if s.state = SState.connected then
    if s.isRTSPConnection then
      some { s with outBuffer := s.outBuffer ++ p }
    else if p.length ≤ 65535 then
      some { s with outBuffer := s.outBuffer ++ lpFrame p }
    else
      none
  else
    none

/-- A sequence of `sendRequest` calls on one session. -/
def sendAll (s : Session) (ps : List (List Nat)) : Option Session :=
  ps.foldlM Session.sendRequest s

/-- `Session::wantsToRead` (lines 213-215). -/
def Session.wantsToRead (s : Session) : Bool :=
  !s.sawReceiveFailure && !(s.state == SState.connecting)

/-- `Session::wantsToWrite` (lines 217-222). -/
def Session.wantsToWrite (s : Session) : Bool :=
  !s.sawSendFailure
    && (s.state == SState.connecting
      || (s.state == SState.connected && !s.outBuffer.isEmpty)
      || (s.state == SState.datagram && !s.outDatagrams.isEmpty))

/-- The length-prefix decode loop of `Session::readMore` (lines 311-328):
while at least 2 bytes are buffered, read the 16-bit big-endian packet size
(`U16_AT`); if the buffer holds the whole packet, extract the payload and
continue on the rest, else stop.  Returns the extracted payloads in order and
the remaining buffer. -/
def decodeLP : List Nat → List (List Nat) × List Nat
  | [] => ([], [])
  | [b] => ([], [b])
  | b0 :: b1 :: rest =>
    if rest.length < b0 * 256 + b1 then
      ([], b0 :: b1 :: rest)
    else
      let r := decodeLP (rest.drop (b0 * 256 + b1))
      (rest.take (b0 * 256 + b1) :: r.1, r.2)
termination_by buf => buf.length
decreasing_by
  simp only [List.length_drop, List.length_cons]
  omega

/-- The notifications posted by the length-prefix decode loop: one `Datagram`
notification per extracted payload (lines 321-325), plus the remaining
buffer. -/
def decodeLPNotifs (sid : Nat) (buf : List Nat) : List Notif × List Nat :=
  ((decodeLP buf).1.map (Notif.datagram sid), (decodeLP buf).2)

/-- The RTP timestamp computed in `Session::writeMore` (line 423):
`uint32_t rtpTime = (nowUs * 9ll) / 100ll` — 90 kHz scale, truncated to
32 bits.  `nowUs` is the monotonic-microsecond clock, non-negative. -/
def rtpTimeAt (nowUs : Nat) : Nat :=
  nowUs * 9 / 100 % 4294967296

/-- Big-endian byte split written into bytes 4..7 (lines 428-431):
`data[4] = t >> 24; data[5] = (t >> 16) & 0xff; data[6] = (t >> 8) & 0xff;
data[7] = t & 0xff` (`t < 2^32`, so no mask is needed on the first byte). -/
def be32 (t : Nat) : List Nat :=
  [t / 16777216, t / 65536 % 256, t / 256 % 256, t % 256]

/-- The head-of-queue datagram transform of `Session::writeMore`
(lines 414-432): if `data[0] == 0x80 && (data[1] & 0x7f) == 33` (note the
short-circuit: `data[1]` is only read when `data[0]` is `0x80`), the RTP
timestamp field (bytes 4..7, also read via `U32_AT(&data[4])`) is overwritten
with the big-endian `rtpTimeAt nowUs` before the datagram is sent; otherwise
the datagram is left unchanged.  An index beyond the datagram's size is an
out-of-range access: modelled as `none`. -/
def rtpStampDatagram (nowUs : Nat) (d : List Nat) : Option (List Nat) :=
  match d.get? 0 with
  | none => none
  | some b0 =>
    if b0 = 128 then
      match d.get? 1 with
      | none => none
      | some b1 =>
        if b1 % 128 = 33 then
          if 8 ≤ d.length then
            some (d.take 4 ++ be32 (rtpTimeAt nowUs) ++ d.drop 8)
          else
            none
        else
          some d
    else
      some d

/-- Modelled from the spec: the numeric value of the `kWhatError` enumerator
is declared in `ANetworkSession.h`, which is not part of the sources here.
Line 472 passes `kWhatError` where `notifyError`'s `bool send` parameter is
expected; the spec states that a connect-completion failure is reported as
`Error(send=true)`, so the modelled boolean value of that argument is
`true`. -/
def kWhatErrorSendFlag : Bool := true

/-- The `CONNECTING` branch of `Session::writeMore` (lines 465-482): read
`SO_ERROR` (`soErr`); if non-zero, post an `Error` notification with
`-soErr`, set `mSawSendFailure` and return `-soErr`; else transition to
`CONNECTED`, post a `Connected` notification and return `OK` (0).
Result: (new session, posted notifications, return value). -/
def writeMoreConnecting (s : Session) (soErr : Int) : Session × List Notif × Int :=
  if soErr ≠ 0 then
    ({ s with sawSendFailure := true },
      [Notif.error s.sessionID kWhatErrorSendFlag (-soErr)], -soErr)
  else
    ({ s with state := SState.connected }, [Notif.connected s.sessionID], 0)

/-- The 17 literal bytes `"wfd_idr_request\r\n"` compared by the `memcmp`
at line 383. -/
def wfdIdrBytes : List Nat :=
  [119, 102, 100, 95, 105, 100, 114, 95, 114, 101, 113, 117, 101, 115, 116, 13, 10]

/-- The compatibility-quirk adjustment of the consumed length (lines 377-388):
if the parsed message has content beginning with the 17 bytes
`wfd_idr_request\r\n`, `length >= 19`, and the raw buffer holds `'\r'` at
position `length` and `'\n'` at position `length + 1`, advance `length + 2`
bytes instead of `length`.  Reading the buffer at its size yields the
`c_str()` NUL terminator, modelled by `getD _ 0`. -/
def quirkLength (content : Option (List Nat)) (buf : List Nat) (len : Nat) : Nat :=
  match content with
  | none => len
  | some c =>
    if c.take 17 = wfdIdrBytes ∧ 19 ≤ len ∧ buf.getD len 0 = 13 ∧ buf.getD (len + 1) 0 = 10 then
      len + 2
    else
      len

/-- The external RTSP message parser `ParsedMessage::Parse` (line 363), an
out-of-scope library: given the buffer and the flag `err != OK`, it returns
`none` ("need more data") or the parsed message's content (`getContent`,
which may be NULL) together with the consumed length. -/
abbrev ParseFn := List Nat → Bool → Option (Option (List Nat) × Nat)

/-- The RTSP-connection decode loop of `Session::readMore` (lines 330-396),
with an explicit fuel bound on the number of iterations.  Each iteration:
if the buffer starts with `'$'` (36), decode one interleaved binary frame
`[$][channel][len16 BE][payload]` and post a `BinaryData` notification;
otherwise call the parser; on a parsed message post a `Data` notification,
advance by the quirk-adjusted length, and stop if `errFlag` is set
(`if (err != OK) break`, line 393). -/
def rtspDrain (parse : ParseFn) (errFlag : Bool) (sid : Nat) :
    Nat → List Nat → List Notif × List Nat
  | 0, buf => ([], buf)
  | Nat.succ fuel, buf =>
    if buf.get? 0 = some 36 then
      if buf.length < 4 then
        ([], buf)
      else
        let len := buf.getD 2 0 * 256 + buf.getD 3 0
        if buf.length < 4 + len then
          ([], buf)
        else
          let r := rtspDrain parse errFlag sid fuel (buf.drop (4 + len))
          (Notif.binaryData sid (buf.getD 1 0) ((buf.drop 4).take len) :: r.1, r.2)
    else
      match parse buf errFlag with
      | none => ([], buf)
      | some (content, len) =>
        let buf' := buf.drop (quirkLength content buf len)
        if errFlag then
          ([Notif.data sid], buf')
        else
          let r := rtspDrain parse errFlag sid fuel buf'
          (Notif.data sid :: r.1, r.2)

/-- Result of the non-blocking `recv` on a stream session (lines 285-304),
after the `EINTR` retry loop: `ok bytes` for `n > 0`, `closed` for `n == 0`,
`fail e` for `n < 0` with `errno == e`. -/
inductive RecvResult
  | ok (bytes : List Nat)
  | closed
  | fail (errno : Int)
deriving DecidableEq, Repr

/-- The status computed from the recv result (lines 291-304): `OK` (0) on
data, `-ECONNRESET` (ECONNRESET = 104) on a zero-byte read, `-errno`
otherwise. -/
def recvErrOf : RecvResult → Int
  | RecvResult.ok _ => 0
  | RecvResult.closed => -104
  | RecvResult.fail e => -e

/-- The stream-session part of `Session::readMore` (lines 285-404): append
any received bytes to the inbound buffer, drain complete frames (length
prefixed when `mIsRTSPConnection` is false, the RTSP loop otherwise — the
drain runs whether or not the recv failed), and only then, if the recv
failed, post the `Error(send=false)` notification and set
`mSawReceiveFailure`.  Result: (new session, posted notifications in order,
return value). -/
def streamReadMore (parse : ParseFn) (s : Session) (r : RecvResult) :
    Session × List Notif × Int :=
  let newBytes := match r with | RecvResult.ok bs => bs | _ => []
  let err := recvErrOf r
  let buf0 := s.inBuffer ++ newBytes
  let dec :=
    if s.isRTSPConnection then
      rtspDrain parse (decide (err ≠ 0)) s.sessionID (buf0.length + 1) buf0
    else
      decodeLPNotifs s.sessionID buf0
  if err ≠ 0 then
    ({ s with inBuffer := dec.2, sawReceiveFailure := true },
      dec.1 ++ [Notif.error s.sessionID false err], err)
  else
    ({ s with inBuffer := dec.2 }, dec.1, err)

/-- Observable control-API effects on the engine: acquiring the engine
mutex (`Mutex::Autolock autoLock(mLock)`), mutating engine or session state,
and poking the wake pipe (`interrupt()`, lines 985-996, writes one byte to
`mPipeFd[1]`). -/
inductive CtrlStep
  | acquireLock
  | mutateState
  | pokePipe
deriving DecidableEq, Repr

/-- The lock-mutate-poke effect pattern the spec prescribes for control
operations. -/
def lockMutatePoke : List CtrlStep :=
  [CtrlStep.acquireLock, CtrlStep.mutateState, CtrlStep.pokePipe]

/-- `mSessions.indexOfKey` followed by `valueAt` (KeyedVector lookup):
first entry with the given session ID. -/
def lookupKey : List (Nat × Session) → Nat → Option Session
  | [], _ => none
  | kv :: rest, id => if kv.1 = id then some kv.2 else lookupKey rest id

/-- `indexOfKey` + `removeItemsAt` (line 703-709): remove the first entry
with the given key; `none` when the key is absent. -/
def removeKey : List (Nat × Session) → Nat → Option (List (Nat × Session))
  | [], _ => none
  | kv :: rest, id =>
    if kv.1 = id then some rest else (removeKey rest id).map (kv :: ·)

/-- Replace the first entry with the given key. -/
def updateKey : List (Nat × Session) → Nat → Session → List (Nat × Session)
  | [], _, _ => []
  | kv :: rest, id, s' =>
    if kv.1 = id then (kv.1, s') :: rest else kv :: updateKey rest id s'

/-- `ENOENT` from `errno.h` (external header): 2. -/
def ENOENT : Int := 2

/-- `ANetworkSession::destroySession` (lines 700-714): under the engine lock,
look up the ID; absent → return `-ENOENT` with the map unchanged (no
`interrupt()`); present → remove the entry and poke the wake pipe.
Result: (return value, new session map, effect trace). -/
def destroySessionE (m : List (Nat × Session)) (id : Nat) :
    Int × List (Nat × Session) × List CtrlStep :=
  match removeKey m id with
  | none => (-ENOENT, m, [CtrlStep.acquireLock])
  | some m' => (0, m', lockMutatePoke)

/-- `ANetworkSession::sendRequest` (lines 966-983): under the engine lock,
look up the ID; absent → return `-ENOENT` synchronously (no `interrupt()`);
present → `session->sendRequest(data, size)` then `interrupt()`.  The
session-level `CHECK` aborts are `none`. -/
def sendRequestE (m : List (Nat × Session)) (id : Nat) (p : List Nat) :
    Option (Int × List (Nat × Session) × List CtrlStep) :=
  match lookupKey m id with
  | none => some (-ENOENT, m, [CtrlStep.acquireLock])
  | some s =>
    (Session.sendRequest s p).map fun s' =>
      (0, updateKey m id s', lockMutatePoke)

/-- `ANetworkSession::createClientOrServer` (lines 731-926): under the engine
lock, perform socket setup; on failure return before any engine mutation; on
success issue `mNextSessionID++` as the new session's ID, add it to
`mSessions`, and poke the wake pipe.  Result: (next-ID counter, new map,
effect trace). -/
def createClientOrServerE (m : List (Nat × Session)) (nextID : Nat)
    (newSession : Nat → Session) (setupOk : Bool) :
    Nat × List (Nat × Session) × List CtrlStep :=
  if setupOk then
    (nextID + 1, m ++ [(nextID, newSession nextID)], lockMutatePoke)
  else
    (nextID, m, [CtrlStep.acquireLock])

/-- `ANetworkSession::connectUDPSession` (lines 928-964): under the engine
lock, look up the ID (absent → `-ENOENT`); resolve the remote host and
`connect` the session's socket.  The function returns without calling
`interrupt()`: its trace holds no `pokePipe`.  Result: (return value,
effect trace). -/
def connectUDPSessionE (m : List (Nat × Session)) (id : Nat) (resolveOk : Bool) :
    Int × List CtrlStep :=
  match lookupKey m id with
  | none => (-ENOENT, [CtrlStep.acquireLock])
  | some _ =>
    if resolveOk then
      (0, [CtrlStep.acquireLock, CtrlStep.mutateState])
    else
      (-1, [CtrlStep.acquireLock])

/-- An ID-issuing event: a control-API create operation
(`createClientOrServer`, line 899-900) or the accept path of `threadLoop`
(lines 1114-1121).  Both execute `mNextSessionID++` under the engine lock. -/
inductive IssueEvent
  | createOp
  | acceptChild
deriving DecidableEq, Repr

/-- The session IDs issued for a sequence of create/accept events, starting
from the counter value `nextID` (`mNextSessionID`, initialised to 1 at
line 568). -/
def runIssueEvents : Nat → List IssueEvent → List Nat
  | _, [] => []
  | nextID, _ :: rest => nextID :: runIssueEvents (nextID + 1) rest

/-- A session record used to instantiate theorems on concrete inputs. -/
def mkSession (st : SState) (rtsp : Bool) (inB : List Nat) : Session :=
  { sessionID := 9
    state := st
    isRTSPConnection := rtsp
    sawReceiveFailure := false
    sawSendFailure := false
    outBuffer := []
    outDatagrams := []
    inBuffer := inB }

/-- A parse oracle whose consumed length is smaller than 19: it reports a
message whose content is exactly the 17 quirk bytes but consumed length 0. -/
def parseShortLen : ParseFn := fun _ _ => some (some wfdIdrBytes, 0)

/-- A parse oracle that always asks for more data. -/
def parseNone : ParseFn := fun _ _ => none

/-- A parse oracle that reports a message with the quirk content and
consumed length 19. -/
def parseQuirk19 : ParseFn := fun _ _ => some (some wfdIdrBytes, 19)

end ANetworkSession

namespace ANetworkSession

theorem decodeLP_nil : decodeLP [] = ([], []) := by
  simp [decodeLP]

theorem decodeLP_frame (p B : List Nat) :
    decodeLP (p.length / 256 :: p.length % 256 :: (p ++ B)) =
      (p :: (decodeLP B).1, (decodeLP B).2) := by
  have hsz : p.length / 256 * 256 + p.length % 256 = p.length := by omega
  rw [decodeLP]
  simp only [hsz, List.length_append]
  rw [if_neg (by omega)]
  rw [List.take_left, List.drop_left]

theorem decodeLP_join (ps : List (List Nat)) :
    decodeLP ((ps.map lpFrame).flatten) = (ps, []) := by
  induction ps with
  | nil => simpa using decodeLP_nil
  | cons p ps ih =>
    have hexp : ((p :: ps).map lpFrame).flatten
        = p.length / 256 :: p.length % 256 :: (p ++ (ps.map lpFrame).flatten) := by
      simp [lpFrame]
    rw [hexp, decodeLP_frame, ih]

theorem sendAll_stream (ps : List (List Nat)) (s : Session)
    (hst : s.state = SState.connected) (hrt : s.isRTSPConnection = false)
    (hsz : ∀ p ∈ ps, p.length ≤ 65535) :
    sendAll s ps = some { s with outBuffer := s.outBuffer ++ (ps.map lpFrame).flatten } := by
  induction ps generalizing s with
  | nil => simp [sendAll]
  | cons p ps ih =>
    have hp : p.length ≤ 65535 := hsz p (List.mem_cons_self _ _)
    have hstep : Session.sendRequest s p
        = some { s with outBuffer := s.outBuffer ++ lpFrame p } := by
      simp [Session.sendRequest, hst, hrt, hp]
    have htail := ih { s with outBuffer := s.outBuffer ++ lpFrame p }
      (by simpa using hst) (by simpa using hrt)
      (fun q hq => hsz q (List.mem_cons_of_mem _ hq))
    simp only [sendAll, List.foldlM_cons, hstep, Option.bind_eq_bind,
      Option.some_bind] at *
    rw [htail]
    simp [List.append_assoc]

/-- Claim C1: a sequence of `send_request(id, p_i)` calls on a connected
non-RTSP stream session appends the frames `[len >> 8, len & 0xff] ++ p_i`
to the outbound buffer, and the length-prefix decode loop of `readMore` on
that byte stream posts exactly the payloads `p_i`, in order, one `Datagram`
notification each (an empty payload comes from the two-byte frame
`00 00`). -/
theorem c1_length_framed_roundtrip (s : Session) (ps : List (List Nat))
    (hst : s.state = SState.connected) (hrt : s.isRTSPConnection = false)
    (hob : s.outBuffer = []) (hsz : ∀ p ∈ ps, p.length ≤ 65535) :
    ∃ s', sendAll s ps = some s'
      ∧ s'.outBuffer = (ps.map fun p => p.length / 256 :: p.length % 256 :: p).flatten
      ∧ decodeLPNotifs s.sessionID s'.outBuffer
          = (ps.map (Notif.datagram s.sessionID), []) := by
  refine ⟨_, sendAll_stream ps s hst hrt hsz, ?_, ?_⟩
  · show s.outBuffer ++ (ps.map lpFrame).flatten = _
    rw [hob, List.nil_append]
    rfl
  · show decodeLPNotifs s.sessionID (s.outBuffer ++ (ps.map lpFrame).flatten) = _
    rw [hob, List.nil_append]
    simp [decodeLPNotifs, decodeLP_join]

theorem c1_witness :
    (([[7, 8], [], [1]] : List (List Nat)).map (Notif.datagram 9), ([] : List Nat))
      = (([Notif.datagram 9 [7, 8], Notif.datagram 9 [], Notif.datagram 9 [1]]), [])
    ∧ ∃ s', sendAll (mkSession SState.connected false []) [[7, 8], [], [1]] = some s'
      ∧ s'.outBuffer = [0, 2, 7, 8, 0, 0, 0, 1, 1]
      ∧ decodeLPNotifs 9 s'.outBuffer
          = ([Notif.datagram 9 [7, 8], Notif.datagram 9 [], Notif.datagram 9 [1]], []) := by
  constructor
  · rfl
  · obtain ⟨s', h1, h2, h3⟩ := c1_length_framed_roundtrip
      (mkSession SState.connected false []) [[7, 8], [], [1]]
      rfl rfl rfl (by decide)
    exact ⟨s', h1, by simpa using h2, by simpa [mkSession] using h3⟩

/-- Claim C8: `send_request` on a connected non-RTSP stream session requires
payload size ≤ 65535 (`CHECK_LE(size, 65535)`); a payload of exactly 65535
bytes enqueues the prefixed frame `255 :: 255 :: p` and succeeds, while a
payload of 65536 bytes is rejected (the `CHECK` aborts, modelled `none`). -/
theorem c8_length_limit (s : Session) (p q : List Nat)
    (hst : s.state = SState.connected) (hrt : s.isRTSPConnection = false)
    (hp : p.length = 65535) (hq : q.length = 65536) :
    Session.sendRequest s p = some { s with outBuffer := s.outBuffer ++ (255 :: 255 :: p) }
      ∧ Session.sendRequest s q = none := by
  constructor
  · simp [Session.sendRequest, hst, hrt, lpFrame, hp]
  · simp [Session.sendRequest, hst, hrt, hq]

theorem c8_witness :
    Session.sendRequest (mkSession SState.connected false []) (List.replicate 65535 3)
        = some { mkSession SState.connected false [] with
            outBuffer := [] ++ (255 :: 255 :: List.replicate 65535 3) }
      ∧ Session.sendRequest (mkSession SState.connected false []) (List.replicate 65536 3)
        = none := by
  have h := c8_length_limit (mkSession SState.connected false [])
    (List.replicate 65535 3) (List.replicate 65536 3)
    rfl rfl (by simp only [List.length_replicate]) (by simp only [List.length_replicate])
  exact h


theorem getD_eight_shift (a0 a1 a2 a3 a4 a5 a6 a7 k : Nat) (t : List Nat) :
    (a0 :: a1 :: a2 :: a3 :: a4 :: a5 :: a6 :: a7 :: t).getD (k + 8) 0 = t.getD k 0 := by
  have h := List.getD_append_right [a0, a1, a2, a3, a4, a5, a6, a7] t 0 (k + 8) (by simp)
  simp only [List.cons_append, List.nil_append, List.length_cons, List.length_nil,
    Nat.add_sub_cancel] at h
  exact h

/-- Claim C2: when the head datagram of a `Datagram` session's queue has
byte 0 equal to `0x80` and the low 7 bits of byte 1 equal to 33, `writeMore`
overwrites bytes 4..7 with the big-endian encoding of
`(nowUs * 9) / 100 mod 2^32` — all other bytes unchanged — before calling
`send`; a datagram not matching that pattern is sent with all bytes
unchanged.  (The datagram must hold at least 8 bytes for the accesses to be
in range; see the `rtpStampDatagram` model.) -/
theorem c2_rtp_egress_stamp (nowUs : Nat) (d : List Nat) (h8 : 8 ≤ d.length) :
    ∃ d', rtpStampDatagram nowUs d = some d'
      ∧ (¬(d.getD 0 0 = 128 ∧ d.getD 1 0 % 128 = 33) → d' = d)
      ∧ (d.getD 0 0 = 128 ∧ d.getD 1 0 % 128 = 33 →
          d'.length = d.length
          ∧ (∀ i, i < 4 → d'.getD i 0 = d.getD i 0)
          ∧ (∀ i, 8 ≤ i → d'.getD i 0 = d.getD i 0)
          ∧ d'.getD 4 0 = nowUs * 9 / 100 % 4294967296 / 16777216
          ∧ d'.getD 5 0 = nowUs * 9 / 100 % 4294967296 / 65536 % 256
          ∧ d'.getD 6 0 = nowUs * 9 / 100 % 4294967296 / 256 % 256
          ∧ d'.getD 7 0 = nowUs * 9 / 100 % 4294967296 % 256) := by
  rcases d with _ | ⟨b0, _ | ⟨b1, _ | ⟨b2, _ | ⟨b3, _ | ⟨b4, _ | ⟨b5, _ | ⟨b6, _ | ⟨b7, t⟩⟩⟩⟩⟩⟩⟩⟩ <;>
    simp only [List.length_nil, List.length_cons] at h8 <;> try omega
  by_cases hb0 : b0 = 128
  · by_cases hb1 : b1 % 128 = 33
    · refine ⟨[b0, b1, b2, b3] ++ be32 (rtpTimeAt nowUs)
          ++ (b0 :: b1 :: b2 :: b3 :: b4 :: b5 :: b6 :: b7 :: t).drop 8, ?_, ?_, ?_⟩
      · simp [rtpStampDatagram, hb0, hb1]
      · intro hc
        simp only [List.getD_cons_succ, List.getD_cons_zero, not_and] at hc
        exact absurd hb1 (hc hb0)
      · intro _
        refine ⟨by simp [be32], ?_, ?_, ?_, ?_, ?_, ?_⟩
        · intro i hi
          interval_cases i <;> rfl
        · intro i hi
          obtain ⟨k, rfl⟩ : ∃ k, i = k + 8 := ⟨i - 8, by omega⟩
          show (b0 :: b1 :: b2 :: b3 :: (be32 (rtpTimeAt nowUs)).getD 0 0 :: _ :: _ :: _ :: t).getD _ 0 = _
          simp only [be32, rtpTimeAt]
          rw [getD_eight_shift, getD_eight_shift]
        · rfl
        · rfl
        · rfl
        · rfl
    · refine ⟨_, by simp [rtpStampDatagram, hb0, hb1], fun _ => rfl, fun hc => ?_⟩
      simp only [List.getD_cons_succ, List.getD_cons_zero] at hc
      exact absurd hc.2 hb1
  · refine ⟨_, by simp [rtpStampDatagram, hb0], fun _ => rfl, fun hc => ?_⟩
    simp only [List.getD_cons_succ, List.getD_cons_zero] at hc
    exact absurd hc.1 hb0

theorem c2_witness :
    8 ≤ ([128, 33, 1, 2, 3, 4, 5, 6] : List Nat).length
    ∧ ∃ d', rtpStampDatagram 100 [128, 33, 1, 2, 3, 4, 5, 6] = some d'
      ∧ d'.getD 4 0 = 0 ∧ d'.getD 7 0 = 9 ∧ d'.getD 0 0 = 128 := by
  refine ⟨by simp, ?_⟩
  obtain ⟨d', hsome, -, hmatch⟩ :=
    c2_rtp_egress_stamp 100 [128, 33, 1, 2, 3, 4, 5, 6] (by simp)
  obtain ⟨-, hlow, -, h4, -, -, h7⟩ := hmatch (by constructor <;> rfl)
  refine ⟨d', hsome, ?_, ?_, ?_⟩
  · rw [h4]
  · rw [h7]
  · rw [hlow 0 (by omega)]
    rfl

/-- Claim C9 counterexample: the claim asserts totality of the datagram
write path requires every enqueued datagram to hold at least 2 bytes, the
indexing being out of range for shorter ones; but the `&&` in
`data[0] == 0x80 && (data[1] & 0x7f) == 33` short-circuits, so the 1-byte
datagram `[5]` is handled without any out-of-range access. -/
theorem c9_counterexample :
    rtpStampDatagram 0 [5] = some [5] ∧ ([5] : List Nat).length < 2 := by
  constructor
  · rfl
  · decide

/-- Claim C9 (amended): `send_request` on a `Datagram` session accepts any
payload, including the empty one; the head-datagram transform of `writeMore`
reads byte 0 unconditionally, byte 1 only when byte 0 is `0x80`, and bytes
4..7 when the RTP payload-type-33 pattern matches, so its accesses are in
range exactly when the datagram is non-empty, has at least 2 bytes if its
first byte is `0x80`, and at least 8 bytes if the pattern matches. -/
theorem c9_amended (nowUs : Nat) (d : List Nat) (s : Session)
    (hst : s.state = SState.datagram) :
    Session.sendRequest s d = some { s with outDatagrams := s.outDatagrams ++ [d] }
    ∧ ((rtpStampDatagram nowUs d).isSome ↔
        (d ≠ [] ∧ (d.getD 0 0 = 128 → 2 ≤ d.length)
          ∧ (d.getD 0 0 = 128 ∧ d.getD 1 0 % 128 = 33 → 8 ≤ d.length))) := by
  refine ⟨by simp [Session.sendRequest, hst], ?_⟩
  rcases d with _ | ⟨b0, _ | ⟨b1, rest⟩⟩
  · simp [rtpStampDatagram]
  · by_cases hb0 : b0 = 128 <;> simp [rtpStampDatagram, hb0]
  · by_cases hb0 : b0 = 128
    · by_cases hb1 : b1 % 128 = 33
      · by_cases h8 : 8 ≤ rest.length + 2
        · simp [rtpStampDatagram, hb0, hb1, h8]
        · simp [rtpStampDatagram, hb0, hb1, h8]
      · simp [rtpStampDatagram, hb0, hb1]
    · simp [rtpStampDatagram, hb0]

theorem c9_witness :
    Session.sendRequest (mkSession SState.datagram false []) []
        = some { mkSession SState.datagram false [] with outDatagrams := [[]] }
      ∧ (rtpStampDatagram 0 []).isSome = false := by
  obtain ⟨h1, h2⟩ := c9_amended 0 [] (mkSession SState.datagram false []) rfl
  refine ⟨by simpa [mkSession] using h1, ?_⟩
  rw [Bool.eq_false_iff]
  intro hs
  exact absurd (h2.mp (by simpa using hs)) (by simp)


/-- Claim C5: when a `Connecting` session becomes write-ready, `writeMore`
reads `SO_ERROR`; zero → transition to `Connected` plus a `Connected`
notification and return `OK`; non-zero → an `Error` notification with
`send = true` and the negative errno, the send-failure flag set, the state
unchanged (no transition to `Connected`) and write-readiness no longer
requested. -/
theorem c5_connect_completion (s : Session) (soErr : Int)
    (hst : s.state = SState.connecting) :
    (soErr = 0 →
      writeMoreConnecting s soErr
        = ({ s with state := SState.connected }, [Notif.connected s.sessionID], 0))
    ∧ (soErr ≠ 0 →
      (writeMoreConnecting s soErr).1.sawSendFailure = true
      ∧ (writeMoreConnecting s soErr).1.state = SState.connecting
      ∧ (writeMoreConnecting s soErr).1.state ≠ SState.connected
      ∧ (writeMoreConnecting s soErr).2.1 = [Notif.error s.sessionID true (-soErr)]
      ∧ (writeMoreConnecting s soErr).2.2 = -soErr
      ∧ Session.wantsToWrite (writeMoreConnecting s soErr).1 = false) := by
  constructor
  · intro h0
    simp [writeMoreConnecting, h0]
  · intro hne
    refine ⟨?_, ?_, ?_, ?_, ?_, ?_⟩
    · simp [writeMoreConnecting, hne]
    · simp [writeMoreConnecting, hne, hst]
    · simp [writeMoreConnecting, hne, hst]
    · simp [writeMoreConnecting, hne, kWhatErrorSendFlag]
    · simp [writeMoreConnecting, hne]
    · simp [writeMoreConnecting, hne, Session.wantsToWrite]

theorem c5_witness :
    writeMoreConnecting (mkSession SState.connecting false []) 0
        = ({ mkSession SState.connecting false [] with state := SState.connected },
            [Notif.connected 9], 0)
    ∧ (writeMoreConnecting (mkSession SState.connecting false []) (-111)).2.1
        = [Notif.error 9 true 111]
    ∧ Session.wantsToWrite (writeMoreConnecting (mkSession SState.connecting false []) (-111)).1
        = false := by
  have h0 := (c5_connect_completion (mkSession SState.connecting false []) 0 rfl).1 rfl
  have h1 := (c5_connect_completion (mkSession SState.connecting false []) (-111) rfl).2
    (by decide)
  exact ⟨h0, by simpa [mkSession] using h1.2.2.2.1, h1.2.2.2.2.2⟩

theorem runIssueEvents_mem_le (evs : List IssueEvent) :
    ∀ n x, x ∈ runIssueEvents n evs → n ≤ x := by
  induction evs with
  | nil => intro n x hx; simp [runIssueEvents] at hx
  | cons e evs ih =>
    intro n x hx
    simp only [runIssueEvents, List.mem_cons] at hx
    rcases hx with rfl | hx
    · exact Nat.le_refl _
    · exact Nat.le_of_succ_le (ih (n + 1) x hx)

theorem runIssueEvents_length (evs : List IssueEvent) :
    ∀ n, (runIssueEvents n evs).length = evs.length := by
  induction evs with
  | nil => intro n; rfl
  | cons e evs ih => intro n; simp [runIssueEvents, ih]

theorem runIssueEvents_pairwise (evs : List IssueEvent) :
    ∀ n, List.Pairwise (· < ·) (runIssueEvents n evs) := by
  induction evs with
  | nil => intro n; simp [runIssueEvents]
  | cons e evs ih =>
    intro n
    simp only [runIssueEvents, List.pairwise_cons]
    exact ⟨fun x hx => Nat.lt_of_succ_le (runIssueEvents_mem_le evs (n + 1) x hx), ih (n + 1)⟩

/-- Claim C6: session IDs — issued by `mNextSessionID++` both in
`createClientOrServer` and in the accept path of `threadLoop` — start at 1,
are strictly increasing in creation order, unique (never reused) within the
engine's lifetime, and an accepted child draws a fresh ID (the listening
parent's entry, issued earlier, is untouched). -/
theorem c6_session_ids (evs : List IssueEvent) :
    List.Pairwise (· < ·) (runIssueEvents 1 evs)
    ∧ (runIssueEvents 1 evs).Nodup
    ∧ (evs ≠ [] → (runIssueEvents 1 evs).head? = some 1)
    ∧ (∀ x ∈ runIssueEvents 1 evs, 1 ≤ x)
    ∧ (runIssueEvents 1 evs).length = evs.length := by
  refine ⟨runIssueEvents_pairwise evs 1, ?_, ?_, ?_, ?_⟩
  · exact (runIssueEvents_pairwise evs 1).imp Nat.ne_of_lt
  · intro hne
    cases evs with
    | nil => exact absurd rfl hne
    | cons e evs => rfl
  · exact runIssueEvents_mem_le evs 1
  · exact runIssueEvents_length evs 1

theorem c6_witness :
    ([] : List IssueEvent) ≠ [IssueEvent.createOp, IssueEvent.acceptChild, IssueEvent.createOp]
    ∧ List.Pairwise (· < ·)
        (runIssueEvents 1 [IssueEvent.createOp, IssueEvent.acceptChild, IssueEvent.createOp])
    ∧ (runIssueEvents 1 [IssueEvent.createOp, IssueEvent.acceptChild, IssueEvent.createOp]).head?
        = some 1 := by
  have h := c6_session_ids [IssueEvent.createOp, IssueEvent.acceptChild, IssueEvent.createOp]
  exact ⟨by decide, h.1, h.2.2.1 (by decide)⟩


theorem lookupKey_none_removeKey (m : List (Nat × Session)) (id : Nat)
    (h : lookupKey m id = none) : removeKey m id = none := by
  induction m with
  | nil => rfl
  | cons kv rest ih =>
    by_cases hk : kv.1 = id
    · simp [lookupKey, hk] at h
    · simp only [lookupKey, if_neg hk] at h
      simp [removeKey, hk, ih h]

theorem lookupKey_some_removeKey (m : List (Nat × Session)) (id : Nat) (s : Session)
    (h : lookupKey m id = some s) : ∃ m', removeKey m id = some m' := by
  induction m with
  | nil => simp [lookupKey] at h
  | cons kv rest ih =>
    by_cases hk : kv.1 = id
    · exact ⟨rest, by simp [removeKey, hk]⟩
    · simp only [lookupKey, if_neg hk] at h
      obtain ⟨m', hm'⟩ := ih h
      exact ⟨kv :: m', by simp [removeKey, hk, hm']⟩

theorem lookupKey_none_of_not_mem (m : List (Nat × Session)) (id : Nat)
    (h : id ∉ m.map Prod.fst) : lookupKey m id = none := by
  induction m with
  | nil => rfl
  | cons kv rest ih =>
    simp only [List.map_cons, List.mem_cons, not_or] at h
    have hne : ¬kv.1 = id := fun he => h.1 he.symm
    simp [lookupKey, hne, ih h.2]

theorem removeKey_not_found_again (m : List (Nat × Session)) (id : Nat)
    (hnd : (m.map Prod.fst).Nodup) (m' : List (Nat × Session))
    (h : removeKey m id = some m') : lookupKey m' id = none := by
  induction m generalizing m' with
  | nil => simp [removeKey] at h
  | cons kv rest ih =>
    simp only [List.map_cons, List.nodup_cons] at hnd
    by_cases hk : kv.1 = id
    · simp only [removeKey, if_pos hk, Option.some.injEq] at h
      subst h
      exact lookupKey_none_of_not_mem rest id (hk ▸ hnd.1)
    · simp only [removeKey, if_neg hk, Option.map_eq_some'] at h
      obtain ⟨r', hr', rfl⟩ := h
      simp [lookupKey, hk, ih hnd.2 r' hr']

/-- Claim C7: for a session ID absent from the session map, `destroy_session`
and `send_request` return `-ENOENT` synchronously and leave the map (and the
wake pipe) untouched; a second `destroy_session` on an ID just destroyed
finds the map without that ID (keys are unique) and returns `-ENOENT` with
the map unchanged. -/
theorem c7_unknown_id_not_found (m : List (Nat × Session)) (id : Nat) (p : List Nat) :
    (lookupKey m id = none →
      destroySessionE m id = (-ENOENT, m, [CtrlStep.acquireLock])
      ∧ sendRequestE m id p = some (-ENOENT, m, [CtrlStep.acquireLock]))
    ∧ ((m.map Prod.fst).Nodup → ∀ s, lookupKey m id = some s →
        destroySessionE (destroySessionE m id).2.1 id
          = (-ENOENT, (destroySessionE m id).2.1, [CtrlStep.acquireLock])) := by
  constructor
  · intro h
    constructor
    · simp [destroySessionE, lookupKey_none_removeKey m id h]
    · simp [sendRequestE, h]
  · intro hnd s hs
    obtain ⟨m', hm'⟩ := lookupKey_some_removeKey m id s hs
    have h2 : lookupKey m' id = none := removeKey_not_found_again m id hnd m' hm'
    simp [destroySessionE, hm', lookupKey_none_removeKey m' id h2]

theorem c7_witness :
    lookupKey [(5, mkSession SState.datagram false [])] 7 = none
    ∧ destroySessionE [(5, mkSession SState.datagram false [])] 7
        = (-ENOENT, [(5, mkSession SState.datagram false [])], [CtrlStep.acquireLock])
    ∧ destroySessionE
        (destroySessionE [(5, mkSession SState.datagram false [])] 5).2.1 5
        = (-ENOENT, (destroySessionE [(5, mkSession SState.datagram false [])] 5).2.1,
            [CtrlStep.acquireLock]) := by
  have h1 := (c7_unknown_id_not_found [(5, mkSession SState.datagram false [])] 7 []).1 rfl
  have h2 := (c7_unknown_id_not_found [(5, mkSession SState.datagram false [])] 5 []).2
    (by simp) (mkSession SState.datagram false []) rfl
  exact ⟨rfl, h1.1, h2⟩

/-- Claim C3 counterexample: `connectUDPSession` on a present session ID
acquires the engine mutex and performs its mutation (the `connect` on the
session's socket) but never writes to the wake pipe — there is no
`interrupt()` call in `ANetworkSession::connectUDPSession`
(lines 928-964). -/
theorem c3_counterexample :
    CtrlStep.mutateState
        ∈ (connectUDPSessionE [(5, mkSession SState.datagram false [])] 5 true).2
    ∧ CtrlStep.pokePipe
        ∉ (connectUDPSessionE [(5, mkSession SState.datagram false [])] 5 true).2 := by
  decide

/-- Claim C3 (amended): session creation, `send_request` and
`destroy_session` each acquire the engine mutex, perform their mutation and
then poke the wake pipe; `connect_udp_session`, however, acquires the mutex
and performs its mutation without poking the wake pipe. -/
theorem c3_amended (m : List (Nat × Session)) (nextID : Nat)
    (newSession : Nat → Session) (id : Nat) (p : List Nat) (s s2 : Session)
    (hfind : lookupKey m id = some s) (hsend : Session.sendRequest s p = some s2) :
    (createClientOrServerE m nextID newSession true).2.2 = lockMutatePoke
    ∧ (destroySessionE m id).2.2 = lockMutatePoke
    ∧ (∃ r, sendRequestE m id p = some r ∧ r.2.2 = lockMutatePoke)
    ∧ (connectUDPSessionE m id true).2
        = [CtrlStep.acquireLock, CtrlStep.mutateState]
    ∧ CtrlStep.pokePipe ∉ (connectUDPSessionE m id true).2 := by
  obtain ⟨m', hm'⟩ := lookupKey_some_removeKey m id s hfind
  refine ⟨rfl, ?_, ?_, ?_, ?_⟩
  · simp [destroySessionE, hm']
  · exact ⟨(0, updateKey m id s2, lockMutatePoke), by simp [sendRequestE, hfind, hsend], rfl⟩
  · simp [connectUDPSessionE, hfind]
  · simp [connectUDPSessionE, hfind]

theorem c3_witness :
    (destroySessionE [(5, mkSession SState.datagram false [])] 5).2.2 = lockMutatePoke
    ∧ (connectUDPSessionE [(5, mkSession SState.datagram false [])] 5 true).2
        = [CtrlStep.acquireLock, CtrlStep.mutateState] := by
  have h := c3_amended [(5, mkSession SState.datagram false [])] 1
    (fun _ => mkSession SState.datagram false []) 5 [3]
    (mkSession SState.datagram false [])
    { mkSession SState.datagram false [] with outDatagrams := [[3]] }
    rfl rfl
  exact ⟨h.2.1, h.2.2.2.1⟩


/-- Claim C4 counterexample: the claim omits the `length >= 19` conjunct of
the condition at lines 382-387.  With a parse result whose consumed length
is 0 and whose content is exactly the 17 quirk bytes, and the buffer holding
`\r` at position 0 and `\n` at position 1, the framer advances 0 bytes —
not the claimed `0 + 2`. -/
theorem c4_counterexample :
    rtspDrain parseShortLen true 7 1 [13, 10] = ([Notif.data 7], [13, 10])
    ∧ (rtspDrain parseShortLen true 7 1 [13, 10]).2 ≠ List.drop (0 + 2) [13, 10] := by
  constructor
  · rfl
  · decide

/-- Claim C4 (amended): for a parsed RTSP message whose content begins with
the 17 bytes `wfd_idr_request\r\n`, whose reported consumed length is at
least 19, and with `\r\n` in the raw buffer at positions `length` and
`length + 1`, the framer advances `length + 2` bytes instead of `length`
before continuing to decode. -/
theorem c4_amended (parse : ParseFn) (sid fuel : Nat) (buf c : List Nat) (len : Nat)
    (hnd : ¬buf.get? 0 = some 36)
    (hp : parse buf false = some (some c, len))
    (hc : c.take 17 = wfdIdrBytes)
    (h19 : 19 ≤ len)
    (hcr : buf.getD len 0 = 13) (hlf : buf.getD (len + 1) 0 = 10) :
    rtspDrain parse false sid (fuel + 1) buf
      = (Notif.data sid :: (rtspDrain parse false sid fuel (buf.drop (len + 2))).1,
          (rtspDrain parse false sid fuel (buf.drop (len + 2))).2) := by
  have hq : quirkLength (some c) buf len = len + 2 := by
    show (if List.take 17 c = wfdIdrBytes ∧ 19 ≤ len ∧ buf.getD len 0 = 13
        ∧ buf.getD (len + 1) 0 = 10 then len + 2 else len) = len + 2
    rw [if_pos ⟨hc, h19, hcr, hlf⟩]
  have hnd2 : ¬buf[0]? = some 36 := by simpa using hnd
  simp [rtspDrain, hnd, hnd2, hp, hq]

theorem c4_witness :
    rtspDrain parseQuirk19 false 7 1 (List.replicate 19 0 ++ [13, 10])
      = ([Notif.data 7], []) := by
  have h := c4_amended parseQuirk19 7 0 (List.replicate 19 0 ++ [13, 10])
    wfdIdrBytes 19 (by decide) rfl rfl (by decide) (by decide) (by decide)
  rw [h]
  rfl

theorem rtspDrain_no_err (parse : ParseFn) (e : Bool) (sid : Nat) :
    ∀ fuel buf n, n ∈ (rtspDrain parse e sid fuel buf).1 → n.isErr = false := by
  intro fuel
  induction fuel with
  | zero =>
    intro buf n hn
    simp [rtspDrain] at hn
  | succ fuel ih =>
    intro buf n hn
    simp only [rtspDrain] at hn
    split at hn
    · split at hn
      · simp at hn
      · split at hn
        · simp at hn
        · simp only [List.mem_cons] at hn
          rcases hn with rfl | hn
          · rfl
          · exact ih _ n hn
    · split at hn
      · simp at hn
      · split at hn
        · simp only [List.mem_singleton] at hn
          subst hn
          rfl
        · simp only [List.mem_cons] at hn
          rcases hn with rfl | hn
          · rfl
          · exact ih _ n hn

theorem rtspDrain_data_count (parse : ParseFn) (sid : Nat) :
    ∀ fuel buf, List.countP Notif.isData (rtspDrain parse true sid fuel buf).1 ≤ 1 := by
  intro fuel
  induction fuel with
  | zero =>
    intro buf
    simp [rtspDrain]
  | succ fuel ih =>
    intro buf
    simp only [rtspDrain]
    split
    · split
      · simp
      · split
        · simp
        · simpa [List.countP_cons, Notif.isData] using ih _
    · split
      · simp
      · simp [List.countP_cons, Notif.isData]

theorem streamReadMore_fail_shape (parse : ParseFn) (s : Session) (r : RecvResult)
    (herr : recvErrOf r ≠ 0) :
    streamReadMore parse s r
      = ({ s with
            inBuffer := (if s.isRTSPConnection then
                rtspDrain parse true s.sessionID (s.inBuffer.length + 1) s.inBuffer
              else decodeLPNotifs s.sessionID s.inBuffer).2,
            sawReceiveFailure := true },
          (if s.isRTSPConnection then
              rtspDrain parse true s.sessionID (s.inBuffer.length + 1) s.inBuffer
            else decodeLPNotifs s.sessionID s.inBuffer).1
            ++ [Notif.error s.sessionID false (recvErrOf r)],
          recvErrOf r) := by
  rcases r with bs | _ | e
  · simp [recvErrOf] at herr
  · simp [streamReadMore, recvErrOf]
  · simp only [recvErrOf] at herr
    simp [streamReadMore, recvErrOf, herr]

/-- Claim C10: when a stream-session `recv` fails (or reports connection
reset), `readMore` still decodes the frames already complete in the inbound
buffer and posts their notifications first — every complete length-prefixed
frame on a non-RTSP session, and on an RTSP session every leading
interleaved binary frame plus at most one parsed message — and only then
posts the `Error(send=false)` notification and sets the receive-failure
flag. -/
theorem c10_error_after_frames (parse : ParseFn) (s : Session) (r : RecvResult)
    (herr : recvErrOf r ≠ 0) :
    (streamReadMore parse s r).1.sawReceiveFailure = true
    ∧ (∃ frames, (streamReadMore parse s r).2.1
        = frames ++ [Notif.error s.sessionID false (recvErrOf r)]
        ∧ ∀ n ∈ frames, n.isErr = false)
    ∧ (∀ ps : List (List Nat), s.isRTSPConnection = false →
        s.inBuffer = (ps.map lpFrame).flatten →
        (streamReadMore parse s r).2.1
          = ps.map (Notif.datagram s.sessionID)
            ++ [Notif.error s.sessionID false (recvErrOf r)])
    ∧ (s.isRTSPConnection = true →
        List.countP Notif.isData (streamReadMore parse s r).2.1 ≤ 1) := by
  rw [streamReadMore_fail_shape parse s r herr]
  refine ⟨rfl, ?_, ?_, ?_⟩
  · refine ⟨_, rfl, ?_⟩
    intro n hn
    by_cases hrtsp : s.isRTSPConnection
    · rw [if_pos hrtsp] at hn
      exact rtspDrain_no_err parse true s.sessionID _ _ n hn
    · rw [if_neg hrtsp] at hn
      simp only [decodeLPNotifs, List.mem_map] at hn
      obtain ⟨p, -, rfl⟩ := hn
      rfl
  · intro ps hrtsp hbuf
    rw [if_neg (by simp [hrtsp]), hbuf]
    simp [decodeLPNotifs, decodeLP_join]
  · intro hrtsp
    rw [if_pos hrtsp]
    show List.countP Notif.isData (_ ++ [Notif.error s.sessionID false (recvErrOf r)]) ≤ 1
    rw [List.countP_append]
    have h1 := rtspDrain_data_count parse s.sessionID (s.inBuffer.length + 1) s.inBuffer
    have h2 : List.countP Notif.isData [Notif.error s.sessionID false (recvErrOf r)] = 0 := rfl
    omega

theorem c10_witness :
    recvErrOf RecvResult.closed = -104
    ∧ (streamReadMore parseNone (mkSession SState.connected false [0, 0, 0, 1, 7])
          RecvResult.closed).2.1
        = [Notif.datagram 9 [], Notif.datagram 9 [7]]
            ++ [Notif.error 9 false (-104)]
    ∧ (streamReadMore parseNone (mkSession SState.connected false [0, 0, 0, 1, 7])
          RecvResult.closed).1.sawReceiveFailure = true := by
  have h := c10_error_after_frames parseNone
    (mkSession SState.connected false [0, 0, 0, 1, 7]) RecvResult.closed (by decide)
  have h3 := h.2.2.1 [[], [7]] rfl (by rfl)
  exact ⟨rfl, by simpa [mkSession] using h3, h.1⟩

end ANetworkSession
